import Mathlib

/-!
Shallow embedding of the action-lifecycle / resource-simulation engine of the
browser-game-ocean backend (src/backend/app/services/action_service.py,
src/backend/app/services/resource_service.py, src/backend/app/services/grid_utils.py,
src/backend/app/core/base_definitions.py), together with theorems checking the
natural-language specification against it.

Modelling conventions:
- Python float arithmetic is modelled with exact rationals (ℚ); `int(x)` is
  truncation toward zero (`truncToInt`).
- Python dicts keyed by the fixed set of resource names are total functions
  from the `Channel` enumeration; `dict.get(k, default)` on a key of that set
  is plain application.
- The MongoDB collections are lists; `insert_one` appends, `find_one`/`find?`
  takes the first match, `delete_one` removes the first match, `update_one`
  with an id filter replaces the matching entry.
- `async` functions are pure functions of an explicit database state; a raised
  exception is `Except.error`, and for the `start_*` entry points the state is
  threaded through the result so that "raise before write" is visible.
- Timestamps are rationals (seconds since an arbitrary epoch).
-/

namespace OceanGame

/-- Resource channels: the fixed closed key set RESOURCE_KEYS of resource_service.py. -/
inductive Channel
  | population
  | food
  | oxygen
  | water
  | energy
  | minerals
  | techPoints
deriving DecidableEq, Repr, Fintype

/-- The Python-side dictionary key of each channel. -/
def channelName : Channel → String
  | .population => "population"
  | .food => "food"
  | .oxygen => "oxygen"
  | .water => "water"
  | .energy => "energy"
  | .minerals => "minerals"
  | .techPoints => "tech_points"

/-- RESOURCE_KEYS from resource_service.py, in source order. -/
def RESOURCE_KEYS : List Channel :=
  [.population, .food, .oxygen, .water, .energy, .minerals, .techPoints]

/-- A resource vector: a Python dict over the closed channel set. -/
abbrev Snapshot := Channel → Int

/-- DEFAULT_RESOURCES from resource_service.py. -/
def DEFAULT_RESOURCES : Snapshot
  | .population => 10
  | .food => 100
  | .oxygen => 100
  | .water => 100
  | .energy => 50
  | .minerals => 50
  | .techPoints => 0

/-- DEFAULT_CAPACITY from resource_service.py. -/
def DEFAULT_CAPACITY : Channel → Int
  | .population => 50
  | .food => 500
  | .oxygen => 500
  | .water => 500
  | .energy => 200
  | .minerals => 200
  | .techPoints => 1000

/-- Connection sides of a base (base_definitions.py ConnectionSide). -/
inductive Side
  | top
  | bottom
  | left
  | right
deriving DecidableEq, Repr

/-- BaseDefinition from base_definitions.py: the static per-building data.
Cost/production/consumption/storage_bonus dicts are association lists over the
channel set (their Python keys all lie in RESOURCE_KEYS). -/
structure BaseDefinition where
  build_time_seconds : Int
  workers_required : Int
  cost : List (Channel × Int)
  production : List (Channel × Int)
  consumption : List (Channel × Int)
  connection_sides : List Side
  storage_bonus : List (Channel × Int)
deriving DecidableEq, Repr, Inhabited

/-- BASE_DEFINITIONS table from base_definitions.py, in source order. -/
def BASE_DEFINITIONS : List (String × BaseDefinition) :=
  [ ("command_ship",
     { build_time_seconds := 0, workers_required := 5, cost := [],
       production := [(.energy, 50), (.minerals, 50), (.food, 50), (.oxygen, 50), (.water, 50), (.techPoints, 50)],
       consumption := [],
       connection_sides := [.bottom, .left, .right], storage_bonus := [] }),
    ("residential",
     { build_time_seconds := 30, workers_required := 2,
       cost := [(.minerals, 50), (.energy, 20)],
       production := [(.population, 20)],
       consumption := [(.energy, 5), (.oxygen, 10), (.water, 10), (.food, 15)],
       connection_sides := [.top, .bottom, .left, .right], storage_bonus := [] }),
    ("hydroponic_farm",
     { build_time_seconds := 45, workers_required := 3,
       cost := [(.minerals, 30), (.energy, 15)],
       production := [(.food, 25)],
       consumption := [(.energy, 8), (.water, 5)],
       connection_sides := [.top, .bottom, .left, .right], storage_bonus := [] }),
    ("kelp_forest",
     { build_time_seconds := 20, workers_required := 1,
       cost := [(.minerals, 20)],
       production := [(.food, 10), (.oxygen, 15)],
       consumption := [],
       connection_sides := [.top, .bottom, .left, .right], storage_bonus := [] }),
    ("mining_rig",
     { build_time_seconds := 60, workers_required := 5,
       cost := [(.minerals, 40), (.energy, 30)],
       production := [(.minerals, 20)],
       consumption := [(.energy, 15)],
       connection_sides := [.top, .left, .right], storage_bonus := [] }),
    ("oxygen_generator",
     { build_time_seconds := 40, workers_required := 2,
       cost := [(.minerals, 35), (.energy, 25)],
       production := [(.oxygen, 30)],
       consumption := [(.energy, 12), (.water, 5)],
       connection_sides := [.top, .bottom, .left, .right], storage_bonus := [] }),
    ("water_purifier",
     { build_time_seconds := 40, workers_required := 2,
       cost := [(.minerals, 35), (.energy, 25)],
       production := [(.water, 35)],
       consumption := [(.energy, 10)],
       connection_sides := [.top, .bottom, .left, .right], storage_bonus := [] }),
    ("power_plant",
     { build_time_seconds := 90, workers_required := 4,
       cost := [(.minerals, 60)],
       production := [(.energy, 50)],
       consumption := [(.minerals, 2)],
       connection_sides := [.top, .left, .right], storage_bonus := [] }),
    ("comms_tower",
     { build_time_seconds := 60, workers_required := 2,
       cost := [(.minerals, 80), (.energy, 40)],
       production := [],
       consumption := [(.energy, 20)],
       connection_sides := [.bottom], storage_bonus := [] }),
    ("defense_platform",
     { build_time_seconds := 90, workers_required := 6,
       cost := [(.minerals, 100), (.energy, 50)],
       production := [],
       consumption := [(.energy, 25)],
       connection_sides := [.top, .bottom, .left, .right], storage_bonus := [] }),
    ("shipyard",
     { build_time_seconds := 120, workers_required := 8,
       cost := [(.minerals, 120), (.energy, 60)],
       production := [],
       consumption := [(.energy, 30), (.minerals, 5)],
       connection_sides := [.top, .bottom, .left, .right], storage_bonus := [] }),
    ("research_lab",
     { build_time_seconds := 75, workers_required := 4,
       cost := [(.minerals, 80), (.energy, 50)],
       production := [(.techPoints, 10)],
       consumption := [(.energy, 20)],
       connection_sides := [.top, .bottom, .left, .right], storage_bonus := [] }),
    ("storage_hub",
     { build_time_seconds := 30, workers_required := 1,
       cost := [(.minerals, 40), (.energy, 20)],
       production := [],
       consumption := [(.energy, 5)],
       connection_sides := [.top, .bottom, .left, .right],
       storage_bonus := [(.food, 100), (.oxygen, 100), (.water, 100), (.energy, 50), (.minerals, 50)] }),
    ("trade_hub",
     { build_time_seconds := 120, workers_required := 5,
       cost := [(.minerals, 150), (.energy, 80)],
       production := [],
       consumption := [(.energy, 25)],
       connection_sides := [.top, .bottom, .left, .right], storage_bonus := [] }) ]

/-- TechDefinition from base_definitions.py. The display-only fields
(description, unlocks, tier, category) are never read by the engine and are
omitted from the embedding. -/
structure TechDefinition where
  name : String
  cost : Int
  research_time_seconds : Int
  prerequisites : List String
deriving DecidableEq, Repr, Inhabited

/-- TECH_DEFINITIONS table from base_definitions.py, in source order. -/
def TECH_DEFINITIONS : List (String × TechDefinition) :=
  [ ("basic_construction", { name := "Basic Construction", cost := 0, research_time_seconds := 0, prerequisites := [] }),
    ("life_support", { name := "Life Support Systems", cost := 0, research_time_seconds := 0, prerequisites := [] }),
    ("power_generation", { name := "Power Generation", cost := 0, research_time_seconds := 0, prerequisites := [] }),
    ("storage_systems", { name := "Storage Systems", cost := 0, research_time_seconds := 0, prerequisites := [] }),
    ("advanced_research", { name := "Advanced Research", cost := 50, research_time_seconds := 120, prerequisites := ["basic_construction", "power_generation"] }),
    ("telecommunications", { name := "Telecommunications", cost := 80, research_time_seconds := 180, prerequisites := ["advanced_research"] }),
    ("defense_systems", { name := "Defense Systems", cost := 100, research_time_seconds := 240, prerequisites := ["advanced_research"] }),
    ("naval_construction", { name := "Naval Construction", cost := 120, research_time_seconds := 300, prerequisites := ["defense_systems"] }),
    ("trade_routes", { name := "Trade Routes", cost := 150, research_time_seconds := 360, prerequisites := ["telecommunications"] }),
    ("deep_exploration", { name := "Deep Exploration", cost := 200, research_time_seconds := 420, prerequisites := ["naval_construction"] }),
    ("artifact_analysis", { name := "Artifact Analysis", cost := 180, research_time_seconds := 400, prerequisites := ["deep_exploration"] }),
    ("advanced_weapons", { name := "Advanced Weapons", cost := 250, research_time_seconds := 480, prerequisites := ["naval_construction", "artifact_analysis"] }),
    ("world_government", { name := "World Government", cost := 300, research_time_seconds := 600, prerequisites := ["trade_routes", "telecommunications"] }),
    ("quantum_communications", { name := "Quantum Communications", cost := 400, research_time_seconds := 720, prerequisites := ["world_government"] }) ]

/-- get_base_definition: dict lookup (the raising variant is only called after a
containment check, so the lookup is total there). -/
def get_base_definition (base_type : String) : Option BaseDefinition :=
  BASE_DEFINITIONS.lookup base_type

/-- get_tech_definition: dict lookup. -/
def get_tech_definition (tech_id : String) : Option TechDefinition :=
  TECH_DEFINITIONS.lookup tech_id

/-- can_research_tech from base_definitions.py. -/
def can_research_tech (tech_id : String) (unlocked_techs : List String) : Bool :=
  match TECH_DEFINITIONS.lookup tech_id with
  | none => false
  | some tech =>
    if unlocked_techs.contains tech_id then false
    else tech.prerequisites.all (fun prereq => unlocked_techs.contains prereq)

/-- settings.error_tolerance_seconds from config.py. -/
def error_tolerance_seconds : Int := 5

/-- A building placed in a grid cell (the base dict of city documents).
`position` inside the base dict is redundant with the owning cell's and is not
read by the engine, so it is omitted. -/
structure Base where
  id : String
  type : String
  level : Int
  construction_progress : Int
  is_operational : Bool
  workers : Int
  action_id : Option String := none
  construction_started_at : Option ℚ := none
  construction_ends_at : Option ℚ := none
deriving DecidableEq, Repr, Inhabited

/-- A grid cell of a city document (city_service.create_empty_grid):
position, optional base, unlock flag, depth. -/
structure Cell where
  posX : Int
  posY : Int
  base : Option Base
  is_unlocked : Bool
  depth : Int
deriving DecidableEq, Repr, Inhabited

/-- A city document, restricted to the fields the engine reads and writes. -/
structure City where
  player_id : String
  grid : List (List Cell)
  resources : Snapshot
  resources_last_synced_at : Option ℚ := none
  unlocked_techs : List String := []
  current_research : Option String := none
deriving DecidableEq

/-- Fallback for settings.grid_above_surface_rows, used by get_row_offset only
for an empty or malformed grid. The config.py Settings class does not declare
this field, so that Python path would in fact raise; no theorem below invokes
it (all grids used are nonempty), and the value is irrelevant. -/
def grid_above_surface_rows_fallback : Int := 0

/-- get_row_offset from grid_utils.py: the negated world y of the grid's first
cell, falling back when the grid has no first cell. -/
def get_row_offset (grid : List (List Cell)) : Int :=
  match grid with
  | (c :: _) :: _ => -c.posY
  | _ => grid_above_surface_rows_fallback

/-- world_y_to_index from grid_utils.py. -/
def world_y_to_index (grid : List (List Cell)) (world_y : Int) : Int :=
  world_y + get_row_offset grid

/-- Read grid[gy][x]; only meaningful under the bounds checks the source
performs before every such access. -/
def cellAt (grid : List (List Cell)) (gy x : Int) : Cell :=
  (grid.getD gy.toNat []).getD x.toNat default

/-- Write grid[gy][x] through an in-place update of the cell dict. -/
def setCellAt (grid : List (List Cell)) (gy x : Int) (f : Cell → Cell) : List (List Cell) :=
  grid.set gy.toNat ((grid.getD gy.toNat []).set x.toNat (f (cellAt grid gy x)))

/-- The bounds check `0 <= gy < len(grid) and 0 <= x < len(grid[0])` used by
action_service.py before each grid access. -/
def posInBounds (grid : List (List Cell)) (gy x : Int) : Prop :=
  0 ≤ gy ∧ gy < (grid.length : Int) ∧ 0 ≤ x ∧ x < ((grid.headD []).length : Int)

instance (grid : List (List Cell)) (gy x : Int) : Decidable (posInBounds grid gy x) := by
  unfold posInBounds; infer_instance

/-- ProductionRates from resource_service.py: per-minute rate vectors. -/
structure ProductionRates where
  production : Channel → ℚ
  consumption : Channel → ℚ
  net : Channel → ℚ
deriving DecidableEq

/-- Add every entry of a per-minute rate dict of a base definition into an
accumulating rate vector (the inner `for resource, rate in ...` loops of
calculate_production_rates; every key of the tables lies in RESOURCE_KEYS, so
the `if resource in production` guard is always true). -/
def sumRates (acc : Channel → ℚ) (entries : List (Channel × Int)) : Channel → ℚ :=
  entries.foldl (fun acc p => fun c => if c = p.1 then acc c + (p.2 : ℚ) else acc c) acc

/-- Add `v` to channel `k` of a rate vector. -/
def addTo (f : Channel → ℚ) (k : Channel) (v : ℚ) : Channel → ℚ :=
  fun c => if c = k then f c + v else f c

/-- calculate_production_rates from resource_service.py (lines 67-121), as a
function of the city document it reads: scans operational bases of known type,
sums production and consumption per minute, then adds the population-based
per-capita upkeep (food 0.5·P, oxygen 0.3·P, water 0.2·P per minute). -/
def calculate_production_rates (city : City) : ProductionRates :=
  let scanned :=
    city.grid.foldl
      (fun acc row =>
        row.foldl
          (fun (acc : (Channel → ℚ) × (Channel → ℚ)) cell =>
            match cell.base with
            | none => acc
            | some base =>
              if !base.is_operational then acc
              else
                match BASE_DEFINITIONS.lookup base.type with
                | none => acc
                | some base_def =>
                  (sumRates acc.1 base_def.production, sumRates acc.2 base_def.consumption))
          acc)
      (fun _ => (0 : ℚ), fun _ => (0 : ℚ))
  let population : ℚ := (city.resources .population : ℚ)
  let consumption :=
    addTo (addTo (addTo scanned.2 .food (population * (5 / 10))) .oxygen (population * (3 / 10)))
      .water (population * (2 / 10))
  { production := scanned.1
    consumption := consumption
    net := fun c => scanned.1 c - consumption c }

/-- calculate_capacity from resource_service.py (lines 124-156): default
capacity plus the storage bonuses of operational bases of known type. -/
def calculate_capacity (city : City) : Channel → Int :=
  city.grid.foldl
    (fun acc row =>
      row.foldl
        (fun (acc : Channel → Int) cell =>
          match cell.base with
          | none => acc
          | some base =>
            if !base.is_operational then acc
            else
              match BASE_DEFINITIONS.lookup base.type with
              | none => acc
              | some base_def =>
                base_def.storage_bonus.foldl
                  (fun acc p => fun c => if c = p.1 then acc c + p.2 else acc c) acc)
        acc)
    DEFAULT_CAPACITY

/-- Python `int(x)`: truncation toward zero. -/
def truncToInt (q : ℚ) : Int :=
  if 0 ≤ q then ⌊q⌋ else -⌊-q⌋

/-- The extrapolation loop of calculate_resources_at_time (resource_service.py
lines 200-237), for a positive elapsed time in minutes: every channel except
population is clamped linear extrapolation truncated to an integer, and
population follows the growth/decline rule evaluated on the already
extrapolated food/oxygen/water values. -/
def extrapolateCore (resources : Snapshot) (net : Channel → ℚ) (capacity : Channel → Int)
    (elapsed : ℚ) : Snapshot :=
  let new_resources : Snapshot := fun c =>
    if c = .population then resources c
    else truncToInt (max 0 (min ((resources c : ℚ) + net c * elapsed) ((capacity c : ℚ))))
  let population : ℚ := (new_resources .population : ℚ)
  let food : ℚ := (new_resources .food : ℚ)
  let oxygen : ℚ := (new_resources .oxygen : ℚ)
  let water : ℚ := (new_resources .water : ℚ)
  let has_food : Prop := food > population
  let has_oxygen : Prop := oxygen > population * (5 / 10)
  let has_water : Prop := water > population * (3 / 10)
  -- The source's `elif not has_food or not has_oxygen or not has_water` is the
  -- exact negation of the growth condition, i.e. an else branch.
  let newPopulation : ℚ :=
    if has_food ∧ has_oxygen ∧ has_water then
      min (population + (1 / 100) * elapsed) ((capacity .population : ℚ))
    else
      max 1 (population - (5 / 100) * elapsed)
  fun c => if c = .population then truncToInt newPopulation else new_resources c

/-- calculate_resources_at_time from resource_service.py (lines 159-237), as a
function of the city document and the requested time point. -/
def calculate_resources_at_time (city : City) (at_time : ℚ) : Snapshot :=
  match city.resources_last_synced_at with
  | none => city.resources
  | some last_synced =>
    let elapsed : ℚ := (at_time - last_synced) / 60
    if elapsed ≤ 0 then city.resources
    else
      let rates := calculate_production_rates city
      let capacity := calculate_capacity city
      extrapolateCore city.resources rates.net capacity elapsed

/-- One row of drift_details in sync_resources. -/
structure DriftDetail where
  client : Int
  expected : Int
  difference : Int
  tolerance : Int
deriving DecidableEq, Repr

/-- ResourceSyncResult from resource_service.py. -/
structure ResourceSyncResult where
  resources : Snapshot
  capacity : Channel → Int
  production_rates : ProductionRates
  last_synced_at : ℚ
  drift_detected : Bool
  drift_details : Option (List (Channel × DriftDetail))
deriving DecidableEq

/-- sync_resources from resource_service.py (lines 240-317): computes the
server-expected vector, flags drift per channel beyond a tolerance band,
always persists and returns the server-expected vector, and advances the sync
timestamp to now. The city-not-found fatal path is outside the model (the city
document is an argument); ownership failure raises. -/
def sync_resources_apply (city : City) (client_resources : Snapshot) (now : ℚ) :
    City × ResourceSyncResult :=
  let expected_resources := calculate_resources_at_time city now
  let capacity := calculate_capacity city
  let rates := calculate_production_rates city
  -- tolerance per channel: int(|net per second| * tolerance_seconds) + 1
  let tolerance : Channel → Int := fun c =>
    truncToInt (|rates.net c| / 60 * (error_tolerance_seconds : ℚ)) + 1
  let drift :=
    RESOURCE_KEYS.foldl
      (fun (acc : Bool × List (Channel × DriftDetail)) c =>
        let client_val := client_resources c
        let expected_val := expected_resources c
        let diff := |client_val - expected_val|
        let resource_tolerance := tolerance c
        if diff > resource_tolerance then
          (true, acc.2 ++ [(c, { client := client_val, expected := expected_val,
                                 difference := diff, tolerance := resource_tolerance })])
        else acc)
      (false, [])
  -- Always use server-calculated values (server is source of truth)
  let final_resources := expected_resources
  ({ city with
      resources := final_resources
      resources_last_synced_at := some now },
   { resources := final_resources
     capacity := capacity
     production_rates := rates
     last_synced_at := now
     drift_detected := drift.1
     drift_details := if drift.1 then some drift.2 else none })

/-- sync_resources entry point: ownership check, then the body above. -/
def sync_resources (city : City) (player_id : String) (client_resources : Snapshot)
    (now : ℚ) : Except String (City × ResourceSyncResult) :=
  if city.player_id ≠ player_id then .error "Not your city"
  else .ok (sync_resources_apply city client_resources now)

/-- ActionData from models/action.py, restricted to the build and research
fields the engine reads (the troop fields and `extra` are never used). -/
structure ActionData where
  base_type : Option String := none
  position : Option (Int × Int) := none
  base_id : Option String := none
  tech_id : Option String := none
deriving DecidableEq, Repr

/-- PendingAction from models/action.py. `completed_at` models
`action_doc.get("completed_at")`: no writer in the repository ever sets it on
a pending document, so it is `none` for every stored action. -/
structure PendingAction where
  id : String
  city_id : String
  player_id : String
  action_type : String
  started_at : ℚ
  ends_at : ℚ
  duration_seconds : Int
  data : ActionData
  status : String
  created_at : ℚ
  completed_at : Option ℚ := none
deriving DecidableEq, Repr

/-- CompletedAction from models/action.py (the `result` field is the constant
success summary and is omitted). -/
structure CompletedAction where
  original_action_id : String
  city_id : String
  player_id : String
  action_type : String
  started_at : ℚ
  completed_at : ℚ
  duration_seconds : Int
  data : ActionData
deriving DecidableEq, Repr

/-- ActionCompleteResponse from models/action.py. -/
structure ActionCompleteResponse where
  status : String
  remaining_seconds : Option Int := none
  error : Option String := none
  action_id : Option String := none
  completed_at : Option ℚ := none
deriving DecidableEq, Repr

/-- The persistent state the engine touches: the cities collection keyed by
id, and the pending/completed action collections. -/
structure DB where
  cities : List (String × City)
  pending_actions : List PendingAction
  completed_actions : List CompletedAction
deriving DecidableEq

/-- db.cities.update_one with an id filter: replace the city document with the
given id (ids are unique keys). -/
def setCity (db : DB) (city_id : String) (city : City) : DB :=
  { db with cities := db.cities.map (fun p => if p.1 = city_id then (city_id, city) else p) }

/-- start_build_action from action_service.py (lines 38-148). The generated
uuids (action_id, base_id) and the clock reading `now` are arguments. The
state is threaded through the result so that each `raise` visibly leaves the
store at its state at that point. -/
def start_build_action (db : DB) (city_id player_id base_type : String)
    (position : Int × Int) (now : ℚ) (action_id base_id : String) :
    Except String (PendingAction × Snapshot) × DB :=
  match db.cities.lookup city_id with
  | none => (.error "City not found", db)
  | some city_doc =>
    if city_doc.player_id ≠ player_id then (.error "Not your city", db)
    else
      let grid := city_doc.grid
      let x := position.1
      let y := position.2
      let grid_y := world_y_to_index grid y
      if ¬ posInBounds grid grid_y x then (.error "Invalid position", db)
      else
        let cell := cellAt grid grid_y x
        if cell.depth < 0 then (.error "Above-surface construction locked", db)
        else if ¬ cell.is_unlocked then (.error "Cell is locked", db)
        else if cell.base.isSome then (.error "Cell already has a base", db)
        else
          match BASE_DEFINITIONS.lookup base_type with
          | none => (.error ("Unknown base type: " ++ base_type), db)
          | some base_def =>
            let resources := city_doc.resources
            match base_def.cost.find? (fun p => resources p.1 < p.2) with
            | some p => (.error ("Insufficient " ++ channelName p.1), db)
            | none =>
              let resources' : Snapshot :=
                base_def.cost.foldl
                  (fun res p => fun c => if c = p.1 then res c - p.2 else res c) resources
              let duration := base_def.build_time_seconds
              let end_time := now + (duration : ℚ)
              let pending_action : PendingAction :=
                { id := action_id, city_id := city_id, player_id := player_id
                  action_type := "build", started_at := now, ends_at := end_time
                  duration_seconds := duration
                  data := { base_type := some base_type, position := some position,
                            base_id := some base_id }
                  status := "in_progress", created_at := now }
              let db₁ := { db with pending_actions := db.pending_actions ++ [pending_action] }
              let base_doc : Base :=
                { id := base_id, type := base_type, level := 1
                  construction_progress := 0, is_operational := false, workers := 0
                  action_id := some action_id
                  construction_started_at := some now
                  construction_ends_at := some end_time }
              let grid' := setCellAt grid grid_y x (fun c => { c with base := some base_doc })
              let db₂ := setCity db₁ city_id { city_doc with grid := grid', resources := resources' }
              (.ok (pending_action, resources'), db₂)

/-- unlock loop of _complete_build_action: for each of the four neighbours
whose shared side is a declared connection side and which lies in bounds, set
is_unlocked. -/
def unlockAdjacent (grid : List (List Cell)) (base_def : BaseDefinition) (x y : Int) :
    List (List Cell) :=
  [((0 : Int), (-1 : Int), Side.top), (0, 1, Side.bottom), (-1, 0, Side.left), (1, 0, Side.right)].foldl
    (fun g t =>
      if ¬ base_def.connection_sides.contains t.2.2 then g
      else
        let nx := x + t.1
        let ny := y + t.2.1
        let adj_y := world_y_to_index g ny
        if 0 ≤ adj_y ∧ adj_y < (g.length : Int) ∧ 0 ≤ nx ∧ nx < ((g.headD []).length : Int) then
          setCellAt g adj_y nx (fun c => { c with is_unlocked := true })
        else g)
    grid

/-- _complete_build_action from action_service.py (lines 237-286). Build
actions created by start_build_action always carry position and base_type; an
absent field would make the Python subscripting raise, modelled as an error. -/
def _complete_build_action (db : DB) (city_id : String) (data : ActionData) :
    Except String DB :=
  match db.cities.lookup city_id with
  | none => .error "City not found"
  | some city_doc =>
    match data.position, data.base_type with
    | some position, some base_type =>
      let grid := city_doc.grid
      let x := position.1
      let y := position.2
      let grid_y := world_y_to_index grid y
      if ¬ posInBounds grid grid_y x then .error "Invalid position"
      else
        match (cellAt grid grid_y x).base with
        | none => .error "Base not found at position"
        | some base =>
          match BASE_DEFINITIONS.lookup base_type with
          | none => .error ("Unknown base type: " ++ base_type)
          | some base_def =>
            let base' : Base :=
              { base with construction_progress := 100, is_operational := true
                          workers := base_def.workers_required, action_id := none
                          construction_started_at := none, construction_ends_at := none }
            let grid₁ := setCellAt grid grid_y x (fun c => { c with base := some base' })
            let grid₂ := unlockAdjacent grid₁ base_def x y
            .ok (setCity db city_id { city_doc with grid := grid₂ })
    | _, _ => .error "Invalid position"

/-- _complete_research_action from action_service.py (lines 382-408). -/
def _complete_research_action (db : DB) (city_id : String) (data : ActionData) :
    Except String DB :=
  match db.cities.lookup city_id with
  | none => .error "City not found"
  | some city_doc =>
    match data.tech_id with
    | none => .error "Missing tech_id in research action data"
    | some tech_id =>
      let unlocked_techs := city_doc.unlocked_techs
      let unlocked_techs' :=
        if unlocked_techs.contains tech_id then unlocked_techs else unlocked_techs ++ [tech_id]
      .ok (setCity db city_id
        { city_doc with unlocked_techs := unlocked_techs', current_research := none })

/-- complete_action from action_service.py (lines 151-234). The timestamp
parsing branch (ISO string, naive datetime) is identity on the rational
timestamps of the model. An uncaught exception raised by a completion helper
is `Except.error`. -/
def complete_action (db : DB) (action_id player_id : String) (now : ℚ) :
    Except String (DB × ActionCompleteResponse) :=
  match db.pending_actions.find? (fun a => a.id == action_id) with
  | none => .ok (db, { status := "failed", error := some "Action not found" })
  | some action_doc =>
    if action_doc.player_id ≠ player_id then
      .ok (db, { status := "failed", error := some "Not your action" })
    else if action_doc.status = "completed" then
      .ok (db, { status := "completed", action_id := some action_id,
                 completed_at := action_doc.completed_at })
    else
      let end_time := action_doc.ends_at
      if now < end_time then
        .ok (db, { status := "pending",
                   remaining_seconds := some (max 1 (truncToInt (end_time - now))) })
      else
        (if action_doc.action_type = "build" then
           _complete_build_action db action_doc.city_id action_doc.data
         else if action_doc.action_type = "research" then
           _complete_research_action db action_doc.city_id action_doc.data
         else .ok db).map
          (fun db₁ =>
            let completed_action : CompletedAction :=
              { original_action_id := action_id, city_id := action_doc.city_id
                player_id := player_id, action_type := action_doc.action_type
                started_at := action_doc.started_at, completed_at := now
                duration_seconds := action_doc.duration_seconds, data := action_doc.data }
            let db₂ :=
              { db₁ with
                  completed_actions := db₁.completed_actions ++ [completed_action]
                  pending_actions := db₁.pending_actions.eraseP (fun a => a.id == action_id) }
            (db₂, { status := "completed", action_id := some action_id,
                    completed_at := some now }))

/-- start_research_action from action_service.py (lines 289-379), in the same
threaded-state style as start_build_action. `if current_research:` is Python
truthiness on an optional tech id; stored research ids are non-empty strings,
so it is `isSome`. -/
def start_research_action (db : DB) (city_id player_id tech_id : String) (now : ℚ)
    (action_id : String) : Except String (PendingAction × Snapshot) × DB :=
  match db.cities.lookup city_id with
  | none => (.error "City not found", db)
  | some city_doc =>
    if city_doc.player_id ≠ player_id then (.error "Not your city", db)
    else
      match TECH_DEFINITIONS.lookup tech_id with
      | none => (.error ("Unknown tech: " ++ tech_id), db)
      | some tech_def =>
        let unlocked_techs := city_doc.unlocked_techs
        if unlocked_techs.contains tech_id then (.error "Tech already researched", db)
        else if ¬ can_research_tech tech_id unlocked_techs then
          (.error "Prerequisites not met", db)
        else if city_doc.current_research.isSome then
          (.error "Already researching another tech", db)
        else
          let resources := city_doc.resources
          let tech_points := resources .techPoints
          if tech_points < tech_def.cost then
            (.error ("Insufficient tech points (need " ++ toString tech_def.cost ++
                     ", have " ++ toString tech_points ++ ")"), db)
          else
            let resources' : Snapshot :=
              fun c => if c = .techPoints then tech_points - tech_def.cost else resources c
            let duration := tech_def.research_time_seconds
            let end_time := now + (duration : ℚ)
            let pending_action : PendingAction :=
              { id := action_id, city_id := city_id, player_id := player_id
                action_type := "research", started_at := now, ends_at := end_time
                duration_seconds := duration
                data := { tech_id := some tech_id }
                status := "in_progress", created_at := now }
            let db₁ := { db with pending_actions := db.pending_actions ++ [pending_action] }
            let db₂ := setCity db₁ city_id
              { city_doc with resources := resources', current_research := some tech_id }
            (.ok (pending_action, resources'), db₂)

/-- cancel_action from action_service.py (lines 464-504). Build actions always
carry a position (set by start_build_action); its absence would make the
Python subscripting raise after the status update, modelled as an error. -/
def cancel_action (db : DB) (action_id player_id : String) :
    Except String (DB × Bool) :=
  match db.pending_actions.find? (fun a => a.id == action_id) with
  | none => .ok (db, false)
  | some action_doc =>
    if action_doc.player_id ≠ player_id then .ok (db, false)
    else if action_doc.status ≠ "in_progress" then .ok (db, false)
    else
      let db₁ :=
        { db with
            pending_actions := db.pending_actions.map
              (fun a => if a.id == action_id then { a with status := "cancelled" } else a) }
      if action_doc.action_type = "build" then
        match action_doc.data.position with
        | none => .error "Invalid position"
        | some position =>
          match db₁.cities.lookup action_doc.city_id with
          | none => .ok (db₁, true)
          | some city_doc =>
            let grid := city_doc.grid
            let x := position.1
            let y := position.2
            let grid_y := world_y_to_index grid y
            let grid' :=
              if posInBounds grid grid_y x then
                setCellAt grid grid_y x (fun c => { c with base := none })
              else grid
            .ok (setCity db₁ action_doc.city_id { city_doc with grid := grid' }, true)
      else .ok (db₁, true)

/-! Concrete fixtures used by witnesses and counterexamples. -/

/-- A cell as laid out by city_service.create_empty_grid (depth = world y). -/
def mkCell (x y : Int) (b : Option Base) (unlocked : Bool) : Cell :=
  { posX := x, posY := y, base := b, is_unlocked := unlocked, depth := y }

/-- An operational base of the given type. -/
def mkOperationalBase (t : String) (w : Int) : Base :=
  { id := "b0", type := t, level := 1, construction_progress := 100,
    is_operational := true, workers := w }

/-- A small city with an empty grid, default resources, synced at time 0. -/
def plainCity : City :=
  { player_id := "p1", grid := [], resources := DEFAULT_RESOURCES,
    resources_last_synced_at := some 0,
    unlocked_techs := ["basic_construction", "life_support", "power_generation", "storage_systems"],
    current_research := none }

/-- A city with an operational power plant (net minerals −2 per minute) and a
free unlocked cell, holding 100 stored minerals, last synced at time 0. -/
def c2City : City :=
  { player_id := "p1",
    grid := [[mkCell 0 0 (some (mkOperationalBase "power_plant" 4)) true,
              mkCell 1 0 none true]],
    resources := fun c => if c = .minerals then 100 else DEFAULT_RESOURCES c,
    resources_last_synced_at := some 0,
    unlocked_techs := ["basic_construction", "power_generation"], current_research := none }

/-- Database around c2City. -/
def c2DB : DB :=
  { cities := [("c1", c2City)], pending_actions := [], completed_actions := [] }

/-- A city in the middle of researching advanced_research. -/
def c1City : City :=
  { player_id := "p1", grid := [], resources := DEFAULT_RESOURCES,
    resources_last_synced_at := none,
    unlocked_techs := ["basic_construction", "power_generation"],
    current_research := some "advanced_research" }

/-- The matching in-progress research action, due at time 10. -/
def c1Action : PendingAction :=
  { id := "a1", city_id := "c1", player_id := "p1", action_type := "research",
    started_at := 0, ends_at := 10, duration_seconds := 10,
    data := { tech_id := some "advanced_research" }, status := "in_progress", created_at := 0 }

/-- Database around c1City with the due research action. -/
def c1DB : DB :=
  { cities := [("c1", c1City)], pending_actions := [c1Action], completed_actions := [] }

/-- An in-progress build action with one and a half seconds left at time 0. -/
def c6Action : PendingAction :=
  { id := "a6", city_id := "c1", player_id := "p1", action_type := "build",
    started_at := 0, ends_at := 3 / 2, duration_seconds := 30,
    data := { base_type := some "kelp_forest", position := some (1, 0), base_id := some "b6" },
    status := "in_progress", created_at := 0 }

/-- Database around c2City with the not-yet-due action. -/
def c6DB : DB :=
  { cities := [("c1", c2City)], pending_actions := [c6Action], completed_actions := [] }

/-- A city whose research slot is occupied while the prerequisites and cost of
telecommunications are otherwise satisfied. -/
def c7City : City :=
  { player_id := "p1", grid := [],
    resources := fun c => if c = .techPoints then 500 else DEFAULT_RESOURCES c,
    resources_last_synced_at := some 0,
    unlocked_techs := ["basic_construction", "life_support", "power_generation",
                       "storage_systems", "advanced_research"],
    current_research := some "defense_systems" }

/-- Database around c7City. -/
def c7DB : DB :=
  { cities := [("c7", c7City)], pending_actions := [], completed_actions := [] }

/-- An in-progress build action on the free cell of c2City, cancellable. -/
def c8Action : PendingAction :=
  { id := "a8", city_id := "c8", player_id := "p1", action_type := "build",
    started_at := 0, ends_at := 20, duration_seconds := 20,
    data := { base_type := some "kelp_forest", position := some (1, 0), base_id := some "b8" },
    status := "in_progress", created_at := 0 }

/-- A city holding the under-construction placeholder base of c8Action. -/
def c8City : City :=
  { player_id := "p1",
    grid := [[mkCell 0 0 (some (mkOperationalBase "power_plant" 4)) true,
              mkCell 1 0 (some { id := "b8", type := "kelp_forest", level := 1,
                                 construction_progress := 0, is_operational := false,
                                 workers := 0, action_id := some "a8",
                                 construction_started_at := some 0,
                                 construction_ends_at := some 20 }) true]],
    resources := fun c => if c = .minerals then 80 else DEFAULT_RESOURCES c,
    resources_last_synced_at := some 0,
    unlocked_techs := ["basic_construction"], current_research := none }

/-- Database around c8City with the cancellable build action. -/
def c8DB : DB :=
  { cities := [("c8", c8City)], pending_actions := [c8Action], completed_actions := [] }

/-! Theorems. -/

/-- truncToInt agrees with the floor on nonnegative arguments. -/
theorem truncToInt_of_nonneg {q : ℚ} (h : 0 ≤ q) : truncToInt q = ⌊q⌋ :=
  if_pos h

/-- truncToInt of a nonnegative rational is nonnegative. -/
theorem truncToInt_nonneg {q : ℚ} (h : 0 ≤ q) : 0 ≤ truncToInt q := by
  rw [truncToInt_of_nonneg h]
  exact Int.le_floor.mpr (by exact_mod_cast h)

/-- truncToInt of a nonnegative rational below an integer stays below it. -/
theorem truncToInt_le_intCast {q : ℚ} {z : Int} (h0 : 0 ≤ q) (h : q ≤ (z : ℚ)) :
    truncToInt q ≤ z := by
  rw [truncToInt_of_nonneg h0]
  exact le_of_le_of_eq (Int.floor_le_floor h) (Int.floor_intCast z)

/-- truncToInt of a rational that is at least one is at least one. -/
theorem one_le_truncToInt {q : ℚ} (h : 1 ≤ q) : 1 ≤ truncToInt q := by
  rw [truncToInt_of_nonneg (le_trans zero_le_one h)]
  exact Int.le_floor.mpr (by exact_mod_cast h)

/-- Folding a step function that never decreases any channel of the
accumulator never decreases any channel. -/
theorem le_foldl_of_le_step {α : Type} (g : (Channel → Int) → α → (Channel → Int)) :
    ∀ (l : List α), (∀ acc x, x ∈ l → ∀ c, acc c ≤ g acc x c) →
      ∀ (acc : Channel → Int) (c : Channel), acc c ≤ (l.foldl g acc) c := by
  intro l
  induction l with
  | nil => intro _ acc c; exact le_refl _
  | cons x t ih =>
    intro hg acc c
    exact le_trans (hg acc x (List.mem_cons_self x t) c)
      (ih (fun acc' y hy c' => hg acc' y (List.mem_cons_of_mem x hy) c') (g acc x) c)

/-- Every storage bonus declared in the definition table is nonnegative. -/
theorem storage_bonus_nonneg :
    ∀ p ∈ BASE_DEFINITIONS, ∀ q ∈ p.2.storage_bonus, (0 : Int) ≤ q.2 := by decide

/-- A successful definition-table lookup is a table entry. -/
theorem mem_of_lookup_base {l : List (String × BaseDefinition)} {k : String}
    {v : BaseDefinition} (h : l.lookup k = some v) : (k, v) ∈ l := by
  induction l with
  | nil => simp [List.lookup] at h
  | cons p t ih =>
    simp only [List.lookup] at h
    cases hk : k == p.1 with
    | true =>
      rw [hk] at h
      simp only at h
      have hk' : k = p.1 := by simpa using hk
      have hp : (k, v) = p := by
        cases p
        simp_all
      rw [hp]
      exact List.mem_cons_self _ _
    | false =>
      rw [hk] at h
      simp only at h
      exact List.mem_cons_of_mem _ (ih h)

/-- calculate_capacity never drops below the default capacity: it only adds
the storage bonuses of operational bases, and every bonus in the table is
nonnegative. -/
theorem default_capacity_le_calculate_capacity (city : City) (c : Channel) :
    DEFAULT_CAPACITY c ≤ calculate_capacity city c := by
  unfold calculate_capacity
  refine le_foldl_of_le_step _ _ ?_ _ _
  intro acc row _ c1
  refine le_foldl_of_le_step _ _ ?_ _ _
  intro acc1 cell _ c2
  cases hb : cell.base with
  | none => exact le_refl _
  | some base =>
    dsimp only
    by_cases hop : base.is_operational
    · rw [if_neg (by simp [hop])]
      cases hlk : BASE_DEFINITIONS.lookup base.type with
      | none => exact le_refl _
      | some d =>
        refine le_foldl_of_le_step _ _ ?_ _ _
        intro acc2 q hq c3
        dsimp only
        by_cases hc : c3 = q.1
        · rw [if_pos hc]
          exact le_add_of_nonneg_right
            (storage_bonus_nonneg _ (mem_of_lookup_base hlk) q hq)
        · rw [if_neg hc]
    · rw [if_pos (by simp [hop])]

/-- With a positive elapsed time, calculate_resources_at_time is the
extrapolation loop applied to the stored snapshot, the net rates and the
capacity, with elapsed measured in minutes. -/
theorem calculate_resources_at_time_of_pos (city : City) (t0 at_time : ℚ)
    (hsync : city.resources_last_synced_at = some t0) (h : t0 < at_time) :
    calculate_resources_at_time city at_time =
      extrapolateCore city.resources (calculate_production_rates city).net
        (calculate_capacity city) ((at_time - t0) / 60) := by
  unfold calculate_resources_at_time
  rw [hsync]
  dsimp only
  rw [if_neg (not_le.mpr (div_pos (sub_pos.mpr h) (by norm_num)))]

/-- On a channel other than population, the extrapolation loop is the clamped
linear formula truncated to an integer. -/
theorem extrapolateCore_ne_population (resources : Snapshot) (net : Channel → ℚ)
    (capacity : Channel → Int) (elapsed : ℚ) (c : Channel) (hc : c ≠ .population) :
    extrapolateCore resources net capacity elapsed c =
      truncToInt (max 0 (min ((resources c : ℚ) + net c * elapsed) ((capacity c : ℚ)))) := by
  cases c
  case population => exact absurd rfl hc
  all_goals rfl

/-- On the population channel, the extrapolation loop is the growth/decline
rule evaluated on the already-extrapolated food/oxygen/water values. -/
theorem extrapolateCore_population (resources : Snapshot) (net : Channel → ℚ)
    (capacity : Channel → Int) (elapsed : ℚ) :
    extrapolateCore resources net capacity elapsed .population =
      truncToInt
        (if (extrapolateCore resources net capacity elapsed .food : ℚ) > (resources .population : ℚ) ∧
            (extrapolateCore resources net capacity elapsed .oxygen : ℚ) >
              (resources .population : ℚ) * (5 / 10) ∧
            (extrapolateCore resources net capacity elapsed .water : ℚ) >
              (resources .population : ℚ) * (3 / 10)
         then min ((resources .population : ℚ) + (1 / 100) * elapsed)
                ((capacity .population : ℚ))
         else max 1 ((resources .population : ℚ) - (5 / 100) * elapsed)) :=
  rfl

/-- C9: For every snapshot, rates, and capacity, extrapolation with
elapsed_seconds ≤ 0 is the identity: it returns the input snapshot unchanged
(in particular extrapolate(snapshot, rates, capacity, 0) == snapshot). -/
theorem extrapolation_identity_at_nonpositive_elapsed (city : City) (t0 at_time : ℚ)
    (hsync : city.resources_last_synced_at = some t0) (h : at_time ≤ t0) :
    calculate_resources_at_time city at_time = city.resources := by
  unfold calculate_resources_at_time
  rw [hsync]
  dsimp only
  rw [if_pos (div_nonpos_iff.mpr (Or.inr ⟨sub_nonpos.mpr h, by norm_num⟩))]

/-- Witness for C9 at zero elapsed time. -/
theorem extrapolation_identity_witness :
    plainCity.resources_last_synced_at = some 0 ∧
    calculate_resources_at_time plainCity 0 = plainCity.resources :=
  ⟨rfl, extrapolation_identity_at_nonpositive_elapsed plainCity 0 0 rfl le_rfl⟩

/-- C4: For every snapshot, rate vector, capacity vector, and elapsed time
> 0, extrapolation maps every channel except population to
clamp(current + net_rate_per_minute * elapsed_seconds / 60, 0, capacity[c])
truncated toward zero to an integer, so every such channel value lies within
[0, capacity[c]] for arbitrarily large elapsed durations. -/
theorem extrapolation_clamps_channels (city : City) (t0 at_time : ℚ)
    (hsync : city.resources_last_synced_at = some t0) (h : t0 < at_time)
    (c : Channel) (hc : c ≠ .population) :
    calculate_resources_at_time city at_time c =
      truncToInt (max 0 (min ((city.resources c : ℚ) +
          (calculate_production_rates city).net c * ((at_time - t0) / 60))
        ((calculate_capacity city c : ℚ)))) ∧
    0 ≤ calculate_resources_at_time city at_time c ∧
    calculate_resources_at_time city at_time c ≤ calculate_capacity city c := by
  have hcap : 0 ≤ calculate_capacity city c :=
    le_trans (by cases c <;> decide) (default_capacity_le_calculate_capacity city c)
  rw [calculate_resources_at_time_of_pos city t0 at_time hsync h,
    extrapolateCore_ne_population _ _ _ _ c hc]
  set v : ℚ := (city.resources c : ℚ) +
    (calculate_production_rates city).net c * ((at_time - t0) / 60) with hv
  have hcapQ : (0 : ℚ) ≤ ((calculate_capacity city c : Int) : ℚ) := by exact_mod_cast hcap
  have h0 : (0 : ℚ) ≤ max 0 (min v ((calculate_capacity city c : Int) : ℚ)) := le_max_left _ _
  have hle : max 0 (min v ((calculate_capacity city c : Int) : ℚ)) ≤
      ((calculate_capacity city c : Int) : ℚ) :=
    max_le hcapQ (min_le_right _ _)
  exact ⟨rfl, truncToInt_nonneg h0, truncToInt_le_intCast h0 hle⟩

/-- Witness for C4 on the food channel of the plain city after one minute. -/
theorem extrapolation_clamps_witness :
    plainCity.resources_last_synced_at = some 0 ∧ (0 : ℚ) < 60 ∧
    Channel.food ≠ Channel.population ∧
    (calculate_resources_at_time plainCity 60 .food =
      truncToInt (max 0 (min ((plainCity.resources .food : ℚ) +
          (calculate_production_rates plainCity).net .food * (((60 : ℚ) - 0) / 60))
        ((calculate_capacity plainCity .food : ℚ)))) ∧
     0 ≤ calculate_resources_at_time plainCity 60 .food ∧
     calculate_resources_at_time plainCity 60 .food ≤ calculate_capacity plainCity .food) := by
  refine ⟨rfl, by norm_num, by decide, ?_⟩
  have := extrapolation_clamps_channels plainCity 0 60 rfl (by norm_num) .food (by decide)
  simpa using this

/-- C5: For every extrapolation with elapsed time > 0, population follows the
separate growth/decline rule evaluated on the already-extrapolated
food/oxygen/water values, capped at capacity[population] and floored at 1; in
particular a population ≥ 1 stays ≥ 1 regardless of starvation duration
(the population capacity the code computes is at least the default of 50). -/
theorem population_rule (city : City) (t0 at_time : ℚ)
    (hsync : city.resources_last_synced_at = some t0) (h : t0 < at_time) :
    (calculate_resources_at_time city at_time .population =
      truncToInt
        (if (calculate_resources_at_time city at_time .food : ℚ) >
              (city.resources .population : ℚ) ∧
            (calculate_resources_at_time city at_time .oxygen : ℚ) >
              (city.resources .population : ℚ) * (5 / 10) ∧
            (calculate_resources_at_time city at_time .water : ℚ) >
              (city.resources .population : ℚ) * (3 / 10)
         then min ((city.resources .population : ℚ) +
                (1 / 100) * ((at_time - t0) / 60)) ((calculate_capacity city .population : ℚ))
         else max 1 ((city.resources .population : ℚ) -
                (5 / 100) * ((at_time - t0) / 60)))) ∧
    (1 ≤ city.resources .population →
      1 ≤ calculate_resources_at_time city at_time .population) := by
  rw [calculate_resources_at_time_of_pos city t0 at_time hsync h]
  constructor
  · exact extrapolateCore_population _ _ _ _
  · intro hpop
    have hcap : (1 : Int) ≤ calculate_capacity city .population :=
      le_trans (by decide) (default_capacity_le_calculate_capacity city .population)
    rw [extrapolateCore_population]
    have hpopQ : (1 : ℚ) ≤ (city.resources .population : ℚ) := by exact_mod_cast hpop
    have hcapQ : (1 : ℚ) ≤ ((calculate_capacity city .population : Int) : ℚ) := by
      exact_mod_cast hcap
    have helapsed : (0 : ℚ) ≤ (1 / 100) * ((at_time - t0) / 60) := by
      have h60 := le_of_lt (div_pos (sub_pos.mpr h) (by norm_num : (0 : ℚ) < 60))
      positivity
    apply one_le_truncToInt
    split
    · exact le_min (by linarith) hcapQ
    · exact le_max_left _ _

/-- Witness for C5 on the plain city after one minute. -/
theorem population_rule_witness :
    plainCity.resources_last_synced_at = some 0 ∧ (0 : ℚ) < 60 ∧
    1 ≤ plainCity.resources .population ∧
    1 ≤ calculate_resources_at_time plainCity 60 .population := by
  refine ⟨rfl, by norm_num, by decide, ?_⟩
  exact (population_rule plainCity 0 60 rfl (by norm_num)).2 (by decide)

/-- C3: For every city state, time, and client-supplied resource vector,
sync_resources persists and returns exactly the server-expected vector;
client values are never written back, and last_synced_at advances to now
unconditionally. Two runs differing only in the client vector persist and
return identical resources. -/
theorem sync_resources_server_authoritative (city : City) (player_id : String)
    (client_resources : Snapshot) (now : ℚ) (hown : city.player_id = player_id) :
    ∃ city' result,
      sync_resources city player_id client_resources now = .ok (city', result) ∧
      city'.resources = calculate_resources_at_time city now ∧
      result.resources = calculate_resources_at_time city now ∧
      city'.resources_last_synced_at = some now ∧
      result.last_synced_at = now ∧
      (∀ other_client : Snapshot,
        ∃ city₂ result₂,
          sync_resources city player_id other_client now = .ok (city₂, result₂) ∧
          city₂.resources = city'.resources ∧
          result₂.resources = result.resources ∧
          city₂.resources_last_synced_at = city'.resources_last_synced_at) := by
  have hok : ∀ cr : Snapshot, sync_resources city player_id cr now =
      .ok (sync_resources_apply city cr now) := by
    intro cr
    unfold sync_resources
    rw [if_neg (by simp [hown])]
  exact ⟨_, _, hok client_resources, rfl, rfl, rfl, rfl,
    fun oc => ⟨_, _, hok oc, rfl, rfl, rfl⟩⟩

/-- Witness for C3 on the plain city. -/
theorem sync_resources_witness :
    plainCity.player_id = "p1" ∧
    ∃ city' result,
      sync_resources plainCity "p1" DEFAULT_RESOURCES 60 = .ok (city', result) ∧
      city'.resources = calculate_resources_at_time plainCity 60 ∧
      result.resources = calculate_resources_at_time plainCity 60 ∧
      city'.resources_last_synced_at = some 60 ∧
      result.last_synced_at = 60 ∧
      (∀ other_client : Snapshot,
        ∃ city₂ result₂,
          sync_resources plainCity "p1" other_client 60 = .ok (city₂, result₂) ∧
          city₂.resources = city'.resources ∧
          result₂.resources = result.resources ∧
          city₂.resources_last_synced_at = city'.resources_last_synced_at) :=
  ⟨rfl, sync_resources_server_authoritative plainCity "p1" DEFAULT_RESOURCES 60 rfl⟩

/-- C1: re-invoking complete on a completed action is not the specified
idempotent no-op success. Completing the due research action of c1DB succeeds
and applies the world mutation (tech unlock plus one audit record) once, but
completion deletes the record from pending_actions, so the idempotent-replay
branch of complete_action is unreachable and the second call returns failed
"Action not found" instead of completed with the original timestamp. -/
theorem complete_replay_returns_not_found :
    ∃ db₁ r₁, complete_action c1DB "a1" "p1" 20 = .ok (db₁, r₁) ∧
      r₁.status = "completed" ∧ r₁.completed_at = some 20 ∧
      (db₁.cities.lookup "c1").map City.unlocked_techs =
        some ["basic_construction", "power_generation", "advanced_research"] ∧
      (db₁.cities.lookup "c1").map City.current_research = some none ∧
      db₁.completed_actions.length = 1 ∧ db₁.pending_actions = [] ∧
      ∃ r₂, complete_action db₁ "a1" "p1" 20 = .ok (db₁, r₂) ∧
        r₂.status = "failed" ∧ r₂.error = some "Action not found" := by
  refine ⟨_, _, rfl, rfl, rfl, ?_, ?_, rfl, rfl, _, rfl, rfl, rfl⟩ <;> rfl

/-- C6 counterexample: with one and a half seconds remaining the code returns
remaining_seconds = max(1, int(1.5)) = 1, while the claim's formula
max(1, ceil(ends_at − now)) yields 2. -/
theorem complete_pending_remaining_not_ceiling :
    c6Action.ends_at - 0 = 3 / 2 ∧
    complete_action c6DB "a6" "p1" 0 =
      .ok (c6DB, { status := "pending", remaining_seconds := some 1 }) ∧
    (max 1 ⌈(3 : ℚ) / 2⌉ : Int) = 2 := by
  refine ⟨by norm_num [c6Action], ?_, ?_⟩
  case refine_2 =>
    have hc : (⌈(3 : ℚ) / 2⌉ : Int) = 2 := by
      rw [Int.ceil_eq_iff]
      norm_num
    rw [hc]
    norm_num
  unfold complete_action
  rw [show c6DB.pending_actions.find? (fun x => x.id == "a6") = some c6Action from rfl]
  dsimp only
  rw [if_neg (by decide), if_neg (by decide), if_pos (by norm_num [c6Action])]
  norm_num [c6Action, truncToInt]

/-- C6 as amended: for an existing in_progress action owned by the requester
with now < ends_at, complete returns pending carrying
remaining_seconds = max(1, trunc(ends_at − now)) (truncation toward zero, the
Python int() of the remaining float seconds) and applies no side effect: the
returned state is the input state. -/
theorem complete_pending_returns_trunc_remaining (db : DB) (action_id player_id : String)
    (now : ℚ) (a : PendingAction)
    (hfind : db.pending_actions.find? (fun x => x.id == action_id) = some a)
    (hown : a.player_id = player_id) (hstat : a.status = "in_progress")
    (hlt : now < a.ends_at) :
    complete_action db action_id player_id now =
      .ok (db, { status := "pending",
                 remaining_seconds := some (max 1 (truncToInt (a.ends_at - now))) }) := by
  unfold complete_action
  rw [hfind]
  dsimp only
  rw [if_neg (by simp [hown]), if_neg (by rw [hstat]; decide), if_pos hlt]

/-- Witness for the amended C6 on the concrete not-yet-due action. -/
theorem complete_pending_witness :
    c6Action.player_id = "p1" ∧ c6Action.status = "in_progress" ∧
    (0 : ℚ) < c6Action.ends_at ∧
    complete_action c6DB "a6" "p1" 0 =
      .ok (c6DB, { status := "pending",
                   remaining_seconds := some (max 1 (truncToInt (c6Action.ends_at - 0))) }) :=
  ⟨rfl, rfl, by norm_num [c6Action],
   complete_pending_returns_trunc_remaining c6DB "a6" "p1" 0 c6Action rfl rfl rfl
     (by norm_num [c6Action])⟩

/-- C7: starting a research action while the city's research slot is occupied
(current_research set) fails with the ValidationError "Already researching
another tech" and leaves the store unchanged, even when the technology exists,
is not yet unlocked, and all its prerequisites are met — so a start call never
creates a second in_progress research action for the city. -/
theorem research_single_slot (db : DB) (city_id player_id tech_id : String) (now : ℚ)
    (action_id : String) (city : City) (tech_def : TechDefinition)
    (hcity : db.cities.lookup city_id = some city)
    (hown : city.player_id = player_id)
    (htech : TECH_DEFINITIONS.lookup tech_id = some tech_def)
    (hnew : tech_id ∉ city.unlocked_techs)
    (hprereq : can_research_tech tech_id city.unlocked_techs = true)
    (hbusy : city.current_research.isSome) :
    start_research_action db city_id player_id tech_id now action_id =
      (.error "Already researching another tech", db) := by
  unfold start_research_action
  rw [hcity]
  dsimp only
  rw [if_neg (by simp [hown])]
  rw [htech]
  dsimp only
  rw [if_neg (by simp [hnew]), if_neg (by simp [hprereq]), if_pos hbusy]

/-- Witness for C7: telecommunications is researchable for c7City except that
its research slot is occupied, and the start call fails accordingly. -/
theorem research_single_slot_witness :
    can_research_tech "telecommunications" c7City.unlocked_techs = true ∧
    c7City.current_research.isSome ∧
    start_research_action c7DB "c7" "p1" "telecommunications" 0 "a7" =
      (.error "Already researching another tech", c7DB) :=
  ⟨rfl, rfl,
   research_single_slot c7DB "c7" "p1" "telecommunications" 0 "a7" c7City _
     rfl rfl rfl (by decide) rfl rfl⟩

/-- C2 counterexample: starting a kelp_forest on c2DB at time 6000 succeeds
against the stored snapshot (100 minerals) although the snapshot extrapolated
to the current time has been drained to 0 minerals, below the 20-mineral cost
— so neither the affordability check nor the deduction is computed against
the extrapolated snapshot, and "start succeeds only if the extrapolated
snapshot affords the cost" is false. -/
theorem start_build_checks_stored_counterexample :
    ∃ base_def, BASE_DEFINITIONS.lookup "kelp_forest" = some base_def ∧
      (∃ p ∈ base_def.cost, calculate_resources_at_time c2City 6000 p.1 < p.2) ∧
      ∃ out db', start_build_action c2DB "c1" "p1" "kelp_forest" (1, 0) 6000 "a1" "b1" =
        (.ok out, db') ∧ out.2 .minerals = c2City.resources .minerals - 20 := by
  refine ⟨_, rfl, ⟨(.minerals, 20), by decide, ?_⟩, _, _, rfl, by decide⟩
  show calculate_resources_at_time c2City 6000 .minerals < 20
  rw [calculate_resources_at_time_of_pos c2City 0 6000 rfl (by norm_num),
    extrapolateCore_ne_population _ _ _ _ .minerals (by decide)]
  have hnet : (calculate_production_rates c2City).net .minerals = 0 - (0 + 2) := by
    simp [calculate_production_rates, c2City, mkCell, mkOperationalBase,
      List.foldl_cons, List.foldl_nil, sumRates, addTo,
      show BASE_DEFINITIONS.lookup "power_plant" =
        some { build_time_seconds := 90, workers_required := 4, cost := [(.minerals, 60)],
               production := [(.energy, 50)], consumption := [(.minerals, 2)],
               connection_sides := [.top, .left, .right], storage_bonus := [] } from rfl]
  have hcap : calculate_capacity c2City .minerals = 200 := by decide
  have hres : c2City.resources .minerals = 100 := by decide
  rw [hnet, hcap, hres]
  norm_num [truncToInt, min_def, max_def]

/-- Deducting an association-list cost by the source's fold is, channel by
channel, subtraction of the looked-up cost, provided the cost keys are
distinct (true of every definition table entry). -/
theorem foldl_deduct_eq (resources : Snapshot) (cost : List (Channel × Int))
    (hnd : (cost.map Prod.fst).Nodup) (c : Channel) :
    (cost.foldl (fun res p => fun c' => if c' = p.1 then res c' - p.2 else res c') resources) c =
      resources c - ((cost.lookup c).getD 0) := by
  induction cost generalizing resources with
  | nil => simp [List.lookup]
  | cons p t ih =>
    simp only [List.map_cons, List.nodup_cons] at hnd
    simp only [List.foldl_cons, List.lookup]
    rcases eq_or_ne c p.1 with hc | hc
    · have hnone : t.lookup c = none := by
        rw [List.lookup_eq_none_iff]
        intro q hq
        simp only [bne_iff_ne, ne_eq]
        intro hk
        exact hnd.1 (hc ▸ hk ▸ List.mem_map_of_mem Prod.fst hq)
      rw [ih _ hnd.2, hnone]
      simp [hc]
    · have : (c == p.1) = false := by simpa using hc
      rw [ih _ hnd.2]
      simp [this, hc]

/-- C2 as amended: for both build and research starts, the affordability
precondition and the deduction are both computed against the stored snapshot
(the same snapshot for check and deduction, but not the extrapolated one):
under the non-resource validations, a start succeeds iff
stored[channel] ≥ cost[channel] for every channel of the definition's cost,
and on success the returned resource vector is the stored snapshot minus the
cost, channel by channel. -/
theorem start_affordability_stored (db : DB) (city_id player_id : String) (now : ℚ) :
    (∀ (base_type action_id base_id : String) (position : Int × Int)
      (city : City) (base_def : BaseDefinition),
      db.cities.lookup city_id = some city →
      city.player_id = player_id →
      posInBounds city.grid (world_y_to_index city.grid position.2) position.1 →
      ¬ (cellAt city.grid (world_y_to_index city.grid position.2) position.1).depth < 0 →
      (cellAt city.grid (world_y_to_index city.grid position.2) position.1).is_unlocked →
      (cellAt city.grid (world_y_to_index city.grid position.2) position.1).base = none →
      BASE_DEFINITIONS.lookup base_type = some base_def →
      (base_def.cost.map Prod.fst).Nodup →
      (((∃ out db', start_build_action db city_id player_id base_type position now
            action_id base_id = (.ok out, db')) ↔
        ∀ p ∈ base_def.cost, p.2 ≤ city.resources p.1) ∧
       (∀ pa res db', start_build_action db city_id player_id base_type position now
            action_id base_id = (.ok (pa, res), db') →
        ∀ c, res c = city.resources c - ((base_def.cost.lookup c).getD 0)))) ∧
    (∀ (tech_id action_id : String) (city : City) (tech_def : TechDefinition),
      db.cities.lookup city_id = some city →
      city.player_id = player_id →
      TECH_DEFINITIONS.lookup tech_id = some tech_def →
      tech_id ∉ city.unlocked_techs →
      can_research_tech tech_id city.unlocked_techs = true →
      city.current_research = none →
      (((∃ out db', start_research_action db city_id player_id tech_id now action_id =
            (.ok out, db')) ↔
        tech_def.cost ≤ city.resources .techPoints) ∧
       (∀ pa res db', start_research_action db city_id player_id tech_id now action_id =
            (.ok (pa, res), db') →
        ∀ c, res c = if c = .techPoints then city.resources .techPoints - tech_def.cost
          else city.resources c))) := by
  constructor
  · intro base_type action_id base_id position city base_def hcity hown hpos hdepth
      hunlocked hempty hdef hnd
    unfold start_build_action
    rw [hcity]
    dsimp only
    rw [if_neg (by simp [hown]), if_neg (not_not_intro hpos), if_neg hdepth,
      if_neg (by simp [hunlocked]), if_neg (by simp [hempty])]
    rw [hdef]
    dsimp only
    cases hf : base_def.cost.find? (fun p => decide (city.resources p.1 < p.2)) with
    | none =>
      have hall : ∀ p ∈ base_def.cost, p.2 ≤ city.resources p.1 := by
        intro p hp
        have := List.find?_eq_none.mp hf p hp
        simpa using this
      refine ⟨⟨fun _ => hall, fun _ => ⟨_, _, rfl⟩⟩, ?_⟩
      intro pa res db' heq c
      have hres : res = base_def.cost.foldl
          (fun res p => fun c' => if c' = p.1 then res c' - p.2 else res c') city.resources := by
        have := (Prod.mk.injEq _ _ _ _).mp heq
        have h1 := this.1
        injection h1 with h2
        exact ((Prod.mk.injEq _ _ _ _).mp h2.symm).2
      rw [hres, foldl_deduct_eq _ _ hnd]
    | some p =>
      have hmem := List.mem_of_find?_eq_some hf
      have hlt : city.resources p.1 < p.2 := by simpa using List.find?_some hf
      constructor
      · constructor
        · rintro ⟨out, db', heq⟩
          exact absurd ((Prod.mk.injEq _ _ _ _).mp heq).1 (by simp)
        · intro hall
          exact absurd (hall p hmem) (not_le.mpr hlt)
      · intro pa res db' heq
        exact absurd ((Prod.mk.injEq _ _ _ _).mp heq).1 (by simp)
  · intro tech_id action_id city tech_def hcity hown htech hnot hpr hfree
    unfold start_research_action
    rw [hcity]
    dsimp only
    rw [if_neg (by simp [hown])]
    rw [htech]
    dsimp only
    rw [if_neg (by simp [hnot]), if_neg (by simp [hpr]), if_neg (by simp [hfree])]
    by_cases hx : city.resources .techPoints < tech_def.cost
    · rw [if_pos hx]
      constructor
      · constructor
        · rintro ⟨out, db', heq⟩
          exact absurd ((Prod.mk.injEq _ _ _ _).mp heq).1 (by simp)
        · intro hle
          exact absurd hle (not_le.mpr hx)
      · intro pa res db' heq
        exact absurd ((Prod.mk.injEq _ _ _ _).mp heq).1 (by simp)
    · rw [if_neg hx]
      refine ⟨⟨fun _ => le_of_not_lt hx, fun _ => ⟨_, _, rfl⟩⟩, ?_⟩
      intro pa res db' heq c
      have hres : res = fun c => if c = .techPoints
          then city.resources .techPoints - tech_def.cost else city.resources c := by
        have := (Prod.mk.injEq _ _ _ _).mp heq
        have h1 := this.1
        injection h1 with h2
        exact ((Prod.mk.injEq _ _ _ _).mp h2.symm).2
      rw [hres]

/-- Witness for the amended C2: on c2DB the kelp_forest build start satisfies
the stored-snapshot affordability criterion and deducts from the stored
snapshot, and on c2DB the advanced_research start does the same for tech
points. -/
theorem start_affordability_stored_witness :
    ((∃ out db', start_build_action c2DB "c1" "p1" "kelp_forest" (1, 0) 6000 "a1" "b1" =
        (.ok out, db')) ∧
     (∀ pa res db', start_build_action c2DB "c1" "p1" "kelp_forest" (1, 0) 6000 "a1" "b1" =
        (.ok (pa, res), db') →
      ∀ c, res c = c2City.resources c -
        (((BASE_DEFINITIONS.lookup "kelp_forest").getD default).cost.lookup c).getD 0)) ∧
    (∀ pa res db', start_research_action c2DB "c1" "p1" "advanced_research" 6000 "a2" =
        (.ok (pa, res), db') →
      ∀ c, res c = if c = .techPoints
        then c2City.resources .techPoints -
          ((TECH_DEFINITIONS.lookup "advanced_research").getD default).cost
        else c2City.resources c) := by
  have h := start_affordability_stored c2DB "c1" "p1" 6000
  have hb := h.1 "kelp_forest" "a1" "b1" (1, 0) c2City
    ((BASE_DEFINITIONS.lookup "kelp_forest").getD default)
    rfl rfl (by decide) (by decide) (by decide) (by decide) rfl (by decide)
  have hr := h.2 "advanced_research" "a2" c2City
    ((TECH_DEFINITIONS.lookup "advanced_research").getD default)
    rfl rfl rfl (by decide) (by decide) rfl
  exact ⟨⟨hb.1.mpr (by decide), hb.2⟩, hr.2⟩

/-- C10: every validation failure of a start call leaves the store unchanged:
whenever start_build_action or start_research_action returns an error (city
not found, not owner, invalid/locked/occupied/above-surface cell, unknown
building or tech, tech already unlocked, prerequisite unmet, research slot
occupied, insufficient resources), the threaded database state it returns is
the input state, because every validation check precedes the first write. -/
theorem start_validation_failure_leaves_state_unchanged (db : DB)
    (city_id player_id base_type tech_id : String) (position : Int × Int) (now : ℚ)
    (action_id base_id : String) :
    (∀ e db', start_build_action db city_id player_id base_type position now action_id base_id =
        (.error e, db') → db' = db) ∧
    (∀ e db', start_research_action db city_id player_id tech_id now action_id =
        (.error e, db') → db' = db) := by
  constructor
  · intro e db' h
    unfold start_build_action at h
    dsimp only at h
    repeat' split at h
    all_goals
      first
      | exact ((Prod.mk.injEq _ _ _ _).mp h).2.symm
      | exact absurd ((Prod.mk.injEq _ _ _ _).mp h).1 (by simp)
  · intro e db' h
    unfold start_research_action at h
    dsimp only at h
    repeat' split at h
    all_goals
      first
      | exact ((Prod.mk.injEq _ _ _ _).mp h).2.symm
      | exact absurd ((Prod.mk.injEq _ _ _ _).mp h).1 (by simp)

/-- Witness for C10: a failing build start (unknown base type) and a failing
research start (unknown tech) both leave the concrete database unchanged. -/
theorem start_validation_failure_witness :
    (start_build_action c2DB "c1" "p1" "no_such_base" (1, 0) 0 "a1" "b1").2 = c2DB ∧
    (start_research_action c2DB "c1" "p1" "no_such_tech" 0 "a1").2 = c2DB :=
  ⟨(start_validation_failure_leaves_state_unchanged c2DB "c1" "p1" "no_such_base"
      "no_such_tech" (1, 0) 0 "a1" "b1").1 "Unknown base type: no_such_base" _ rfl,
   (start_validation_failure_leaves_state_unchanged c2DB "c1" "p1" "no_such_base"
      "no_such_tech" (1, 0) 0 "a1" "b1").2 "Unknown tech: no_such_tech" _ rfl⟩

/-- update_one on the cities list: looking up the updated key returns the new
document exactly when the key was present. -/
theorem lookup_setCity_eq (l : List (String × City)) (cid : String) (c : City) :
    (l.map (fun p => if p.1 = cid then (cid, c) else p)).lookup cid =
      (l.lookup cid).map (fun _ => c) := by
  induction l with
  | nil => rfl
  | cons p t ih =>
    simp only [List.map_cons]
    by_cases hp : p.1 = cid
    · rw [if_pos hp]
      have h1 : (cid == cid) = true := by simp
      have h2 : (cid == p.1) = true := by simp [hp]
      simp [List.lookup, h1, h2]
    · rw [if_neg hp]
      have h1 : (cid == p.1) = false := by simp; exact fun h => hp h.symm
      simp [List.lookup, h1, ih]

/-- update_one on the cities list leaves every other key's lookup unchanged. -/
theorem lookup_setCity_ne (l : List (String × City)) (cid cid' : String) (c : City)
    (h : cid' ≠ cid) :
    (l.map (fun p => if p.1 = cid then (cid, c) else p)).lookup cid' = l.lookup cid' := by
  induction l with
  | nil => rfl
  | cons p t ih =>
    simp only [List.map_cons]
    by_cases hp : p.1 = cid
    · rw [if_pos hp]
      have h1 : (cid' == cid) = false := by simpa using h
      have h2 : (cid' == p.1) = false := by simpa using fun hh => h (hh.trans hp)
      simp [List.lookup, h1, h2, ih]
    · rw [if_neg hp]
      cases hcp : cid' == p.1 with
      | true => simp [List.lookup, hcp]
      | false => simp [List.lookup, hcp, ih]

/-- Marking one action cancelled commutes with finding it by id. -/
theorem find?_map_cancel (l : List PendingAction) (aid : String) :
    (l.map (fun x => if x.id == aid then { x with status := "cancelled" } else x)).find?
        (fun x => x.id == aid) =
      (l.find? (fun x => x.id == aid)).map (fun x => { x with status := "cancelled" }) := by
  induction l with
  | nil => rfl
  | cons a t ih =>
    simp only [List.map_cons]
    cases ha : a.id == aid with
    | true =>
      rw [if_pos rfl, List.find?_cons_of_pos _ (by simpa using ha),
        show List.find? (fun x => x.id == aid) (a :: t) = some a from
          List.find?_cons_of_pos _ ha]
      rfl
    | false =>
      rw [if_neg (by simp), List.find?_cons_of_neg _ (by simpa using ha),
        show List.find? (fun x => x.id == aid) (a :: t) = List.find? (fun x => x.id == aid) t
          from List.find?_cons_of_neg _ (by simp [ha])]
      exact ih

/-- Reading back the written cell of setCellAt. -/
theorem cellAt_setCellAt_self (grid : List (List Cell)) (gy x : Int) (f : Cell → Cell)
    (hgy : gy.toNat < grid.length) (hx : x.toNat < (grid.getD gy.toNat []).length) :
    cellAt (setCellAt grid gy x f) gy x = f (cellAt grid gy x) := by
  simp only [cellAt, setCellAt]
  simp only [List.getD_eq_getElem?_getD] at hx ⊢
  rw [List.getElem?_set_eq hgy, Option.getD_some, List.getElem?_set_eq hx, Option.getD_some]

/-- setCellAt leaves every other in-bounds-addressed cell unchanged. -/
theorem cellAt_setCellAt_ne (grid : List (List Cell)) (gy x i j : Int) (f : Cell → Cell)
    (hi : 0 ≤ i) (hj : 0 ≤ j) (hgy0 : 0 ≤ gy) (hx0 : 0 ≤ x)
    (hne : ¬ (i = gy ∧ j = x)) :
    cellAt (setCellAt grid gy x f) i j = cellAt grid i j := by
  simp only [cellAt, setCellAt]
  simp only [List.getD_eq_getElem?_getD]
  by_cases hrow : i = gy
  · subst hrow
    have hjx : j ≠ x := fun h => hne ⟨rfl, h⟩
    have hjx' : x.toNat ≠ j.toNat := by omega
    by_cases hlen : i.toNat < grid.length
    · rw [List.getElem?_set_eq hlen, Option.getD_some, List.getElem?_set_ne hjx']
    · have hlen' : grid.length ≤ i.toNat := le_of_not_lt hlen
      rw [show (grid.set i.toNat ((grid[i.toNat]?.getD []).set x.toNat
            (f ((grid[i.toNat]?.getD [])[x.toNat]?.getD default))))[i.toNat]? = none from
          List.getElem?_eq_none (by simpa using hlen'),
        show grid[i.toNat]? = none from List.getElem?_eq_none hlen']
  · have hne' : gy.toNat ≠ i.toNat := by omega
    rw [List.getElem?_set_ne hne']

/-- C8: cancel succeeds exactly on an existing, requester-owned, in_progress
action (returning false and changing nothing otherwise); on success the
action's status becomes cancelled and, for build actions, the placeholder
base is removed from its grid cell, while the city's resources,
current_research, unlocked_techs, sync timestamp and owner — and every other
cell and city — are unchanged, and no refund is applied. -/
theorem cancel_action_spec (db : DB) (action_id player_id : String) :
    (db.pending_actions.find? (fun x => x.id == action_id) = none →
      cancel_action db action_id player_id = .ok (db, false)) ∧
    (∀ a, db.pending_actions.find? (fun x => x.id == action_id) = some a →
      a.player_id ≠ player_id ∨ a.status ≠ "in_progress" →
      cancel_action db action_id player_id = .ok (db, false)) ∧
    (∀ a, db.pending_actions.find? (fun x => x.id == action_id) = some a →
      a.player_id = player_id → a.status = "in_progress" → a.action_type ≠ "build" →
      cancel_action db action_id player_id =
        .ok ({ db with pending_actions :=
            (db.pending_actions.map
              (fun x => if x.id == action_id then { x with status := "cancelled" } else x)) },
          true)) ∧
    (∀ a city position, db.pending_actions.find? (fun x => x.id == action_id) = some a →
      a.player_id = player_id → a.status = "in_progress" → a.action_type = "build" →
      a.data.position = some position →
      db.cities.lookup a.city_id = some city →
      posInBounds city.grid (world_y_to_index city.grid position.2) position.1 →
      position.1.toNat <
        (city.grid.getD (world_y_to_index city.grid position.2).toNat []).length →
      ∃ db', cancel_action db action_id player_id = .ok (db', true) ∧
        db'.completed_actions = db.completed_actions ∧
        db'.pending_actions.find? (fun x => x.id == action_id) =
          some { a with status := "cancelled" } ∧
        (∀ cid, cid ≠ a.city_id → db'.cities.lookup cid = db.cities.lookup cid) ∧
        ∃ city', db'.cities.lookup a.city_id = some city' ∧
          city'.resources = city.resources ∧
          city'.player_id = city.player_id ∧
          city'.unlocked_techs = city.unlocked_techs ∧
          city'.current_research = city.current_research ∧
          city'.resources_last_synced_at = city.resources_last_synced_at ∧
          cellAt city'.grid (world_y_to_index city.grid position.2) position.1 =
            { cellAt city.grid (world_y_to_index city.grid position.2) position.1 with
                base := none } ∧
          (∀ i j : Int, 0 ≤ i → 0 ≤ j →
            ¬ (i = world_y_to_index city.grid position.2 ∧ j = position.1) →
            cellAt city'.grid i j = cellAt city.grid i j)) := by
  refine ⟨?_, ?_, ?_, ?_⟩
  · intro h
    unfold cancel_action
    rw [h]
  · intro a hfind hne
    unfold cancel_action
    rw [hfind]
    dsimp only
    by_cases hp : a.player_id ≠ player_id
    · rw [if_pos hp]
    · rw [if_neg hp, if_pos (hne.resolve_left hp)]
  · intro a hfind hown hstat htype
    unfold cancel_action
    rw [hfind]
    dsimp only
    rw [if_neg (by simp [hown]), if_neg (by simp [hstat]), if_neg htype]
  · intro a city position hfind hown hstat htype hposition hcity hb hrowlen
    have hgy : (world_y_to_index city.grid position.2).toNat < city.grid.length := by
      obtain ⟨h1, h2, _, _⟩ := hb
      omega
    obtain ⟨hb1, hb2, hb3, hb4⟩ := hb
    unfold cancel_action
    rw [hfind]
    dsimp only
    rw [if_neg (by simp [hown]), if_neg (by simp [hstat]), if_pos htype, hposition]
    dsimp only
    rw [show ({ db with pending_actions :=
          (db.pending_actions.map
            (fun x => if x.id == action_id then { x with status := "cancelled" } else x)) } :
        DB).cities.lookup a.city_id = some city from hcity]
    dsimp only
    rw [if_pos ⟨hb1, hb2, hb3, hb4⟩]
    refine ⟨_, rfl, rfl, ?_, ?_, ?_⟩
    · show (db.pending_actions.map
          (fun x => if x.id == action_id then { x with status := "cancelled" } else x)).find?
          (fun x => x.id == action_id) = _
      rw [find?_map_cancel, hfind]
      rfl
    · intro cid hcid
      exact lookup_setCity_ne _ _ _ _ hcid
    · refine ⟨{ city with grid :=
          (setCellAt city.grid (world_y_to_index city.grid position.2) position.1
            (fun c => { c with base := none })) }, ?_, rfl, rfl, rfl, rfl, rfl, ?_, ?_⟩
      · show (db.cities.map _).lookup a.city_id = _
        rw [lookup_setCity_eq, hcity]
        rfl
      · exact cellAt_setCellAt_self city.grid _ _ (fun c => { c with base := none })
          hgy hrowlen
      · intro i j hi hj hne
        exact cellAt_setCellAt_ne city.grid _ _ i j (fun c => { c with base := none })
          hi hj hb1 hb3 hne

/-- Witness for C8 on the concrete cancellable build action of c8DB. -/
theorem cancel_action_witness :
    c8Action.status = "in_progress" ∧ c8Action.action_type = "build" ∧
    ∃ db', cancel_action c8DB "a8" "p1" = .ok (db', true) ∧
      db'.completed_actions = c8DB.completed_actions ∧
      db'.pending_actions.find? (fun x => x.id == "a8") =
        some { c8Action with status := "cancelled" } ∧
      (∀ cid, cid ≠ c8Action.city_id → db'.cities.lookup cid = c8DB.cities.lookup cid) ∧
      ∃ city', db'.cities.lookup c8Action.city_id = some city' ∧
        city'.resources = c8City.resources ∧
        city'.player_id = c8City.player_id ∧
        city'.unlocked_techs = c8City.unlocked_techs ∧
        city'.current_research = c8City.current_research ∧
        city'.resources_last_synced_at = c8City.resources_last_synced_at ∧
        cellAt city'.grid (world_y_to_index c8City.grid 0) 1 =
          { cellAt c8City.grid (world_y_to_index c8City.grid 0) 1 with base := none } ∧
        (∀ i j : Int, 0 ≤ i → 0 ≤ j →
          ¬ (i = world_y_to_index c8City.grid 0 ∧ j = 1) →
          cellAt city'.grid i j = cellAt c8City.grid i j) :=
  ⟨rfl, rfl,
   (cancel_action_spec c8DB "a8" "p1").2.2.2 c8Action c8City (1, 0)
     rfl rfl rfl rfl rfl rfl (by decide) (by decide)⟩

end OceanGame
